import Mathlib

/-!
Verification of the `data_ingestion_service` repository: a shallow embedding of
`src/data_ingestion_service/upload.py` (class `DIIPUploader`) and of the
standalone script `src/upload.py`, together with theorems settling the frozen
claims about their behaviour.

Conventions of the embedding:
* Python strings are Lean `String`s, byte buffers are `List Nat`.
* JSON bodies returned by the DIIP control plane are modelled by the inductive
  `Json` (string leaves and objects suffice for every body this code touches).
* Network effects are exogenous: each operation takes the outcome the HTTP
  layer would produce (`LibHttpOutcome` for the library, whose generic call
  raises on error; `ScriptAttempt` for the script, whose primitive catches) and
  returns the trace of requests it issued, the log lines it emitted, and either
  a value or the Python exception it raised (`Except PyError`).
* Wall-clock reads (`datetime.now()`) are explicit `Nat` parameters, in
  seconds; `timedelta(minutes=55)` is `55 * 60`.
-/

/-- A JSON value as this code consumes it: a string leaf or an object. -/
inductive Json where
  | str (s : String)
  | obj (fields : List (String × Json))

/-- Lookup of a key in a JSON object field list (Python dict indexing). -/
def lookupField : List (String × Json) → String → Option Json
  | [], _ => none
  | (k2, v) :: rest, k => if k2 = k then some v else lookupField rest k

/-- `body[key]` on a JSON value; `none` models the lookup raising (KeyError on
a dict missing the key, TypeError on a non-dict). -/
def Json.get : Json → String → Option Json
  | .str _, _ => none
  | .obj fs, k => lookupField fs k

/-- Python truthiness of a JSON value: empty strings and empty dicts are falsy. -/
def Json.truthy : Json → Bool
  | .str s => !s.isEmpty
  | .obj fs => !fs.isEmpty

/-- Python `repr` of a JSON value (single-quoted strings, brace-enclosed dicts);
used only because `str(x)` of a dict is its repr. -/
def Json.reprOf : Json → String
  | .str s => "\x27" ++ s ++ "\x27"
  | .obj fs => "\x7b" ++ reprFields fs ++ "\x7d"
where reprFields : List (String × Json) → String
  | [] => ""
  | [(k, v)] => "\x27" ++ k ++ "\x27: " ++ Json.reprOf v
  | (k, v) :: rest => "\x27" ++ k ++ "\x27: " ++ Json.reprOf v ++ ", " ++ reprFields rest

/-- Python `str()` of a JSON value, as an f-string renders it. -/
def Json.pyStr : Json → String
  | .str s => s
  | j => j.reprOf

/-- f-string rendering of `self.data_package_id` (an Optional): `None` renders
as the four-letter string. -/
def pyOptStr : Option Json → String
  | none => "None"
  | some j => j.pyStr

/-- Python truthiness of an optional string argument (`if not file_name:`):
`None` and the empty string are falsy. -/
def pyFalsyOptStr : Option String → Bool
  | none => true
  | some s => s.isEmpty

/-- The Python exceptions this code can raise. -/
inductive PyError where
  | valueError (msg : String)
  | typeError (msg : String)
  | keyError (key : String)
  | httpError (status : Nat)
  | exception (msg : String)
  | other (msg : String)
deriving DecidableEq, Repr

/-- Python `str()` of an exception, as logged by an f-string. For
`requests.HTTPError` (from `raise_for_status`) only the status is retained. -/
def PyError.pyStr : PyError → String
  | .valueError m => m
  | .typeError m => m
  | .keyError k => "\x27" ++ k ++ "\x27"
  | .httpError s => "HTTPError " ++ toString s
  | .exception m => m
  | .other m => m

/-- One control-plane HTTP request as `_api_call` builds it: method, full URL,
the `x-api-key` header value, and the JSON payload (`none` = `json=None`). -/
structure ApiRequest where
  method : String
  url : String
  apiKeyHeader : String
  payload : Option Json

/-- Exogenous outcome of one `requests.request` call in the library path:
either the call raised, or a response with a status code and a (parsed) JSON
body materialised. -/
inductive LibHttpOutcome where
  | raised (e : PyError)
  | response (status : Nat) (body : Json)

/-- One direct-to-storage POST as `_upload_to_s3` builds it: the location
`url`, the location `fields` as form data, and the `files` entry
`file = (file_name, file_obj)`. -/
structure StorageRequest where
  url : Json
  fields : Json
  fileName : String
  content : List Nat

/-- Exogenous outcome of one `requests.post` to storage: status and body text. -/
structure StorageOutcome where
  status : Nat
  text : String
deriving DecidableEq, Repr

/-- The entity URL cache `self._entity_url_cache`: a dict from sanitized entity
name to (cached presigned data, expiration time). -/
def EntityCache := List (String × Json × Nat)

/-- Dict lookup in the cache (first matching key). -/
def cacheLookup : EntityCache → String → Option (Json × Nat)
  | [], _ => none
  | (k2, v, e) :: rest, k => if k2 = k then some (v, e) else cacheLookup rest k

/-- Dict assignment in the cache: replaces the entry for the key or appends. -/
def cacheInsert : EntityCache → String → Json → Nat → EntityCache
  | [], k, v, e => [(k, v, e)]
  | (k2, v2, e2) :: rest, k, v, e =>
      if k2 = k then (k, v, e) :: rest else (k2, v2, e2) :: cacheInsert rest k v e

/-- The mutable state of one `DIIPUploader` instance. -/
structure UploaderState where
  base_url : String
  api_key : String
  data_package_id : Option Json
  entity_url_cache : EntityCache

namespace DIIPUploader

/-- Python `s.replace(old, new)` for a one-character pattern: every occurrence
of the character is replaced. -/
def replaceChar (s : String) (old new : Char) : String :=
  String.mk (go s.toList)
where go : List Char → List Char
  | [] => []
  | c :: cs => (if c = old then new else c) :: go cs

/-- `_clean_name_for_s3`: replace spaces with underscores, then hyphens with
underscores. Pure and deterministic. -/
def clean_name_for_s3 (entity_name : String) : String :=
  replaceChar (replaceChar entity_name ' ' '_') '-' '_'

/-- `_extract_file_name`: `file_path.split("/")[-1]`. -/
def extract_file_name (file_path : String) : String :=
  (file_path.splitOn "/").getLastD ""

/-- Result of one uploader operation: the state after it, the control-plane
requests it issued, the storage POSTs it issued, its log lines, and its value
or raised exception. -/
structure OpResult (α : Type) where
  state : UploaderState
  requests : List ApiRequest
  storageRequests : List StorageRequest
  logs : List String
  result : Except PyError α

/-- `_api_call(endpoint)` with the default method "POST" and payload `None`:
builds the request to `base_url + endpoint` with the `x-api-key` header, then
`raise_for_status()` (raises exactly for statuses in [400, 600)) and returns
the parsed body. -/
def api_call (st : UploaderState) (endpoint : String) (outcome : LibHttpOutcome) :
    ApiRequest × Except PyError Json :=
  let req : ApiRequest :=
    { method := "POST", url := st.base_url ++ endpoint,
      apiKeyHeader := st.api_key, payload := none }
  match outcome with
  | .raised e => (req, .error e)
  | .response status body =>
      if 400 ≤ status ∧ status < 600 then (req, .error (.httpError status))
      else (req, .ok body)

/-- `_initialize_upload`: POST `/upload/init`, log, and return
`response["dataPackageId"]` (a missing key raises before the log line). -/
def initialize_upload (st : UploaderState) (outcome : LibHttpOutcome) :
    List ApiRequest × List String × Except PyError Json :=
  let (req, r) := api_call st "/upload/init" outcome
  match r with
  | .error e => ([req], [], .error e)
  | .ok body =>
      match body.get "dataPackageId" with
      | none => ([req], [], .error (.keyError "dataPackageId"))
      | some v =>
          ([req], ["Initialized upload session with dataPackageId: " ++ v.pyStr], .ok v)

/-- `_complete_upload`: POST `/upload/{data_package_id}/complete` and log. -/
def complete_upload (st : UploaderState) (outcome : LibHttpOutcome) :
    List ApiRequest × List String × Except PyError Unit :=
  let (req, r) :=
    api_call st ("/upload/" ++ pyOptStr st.data_package_id ++ "/complete") outcome
  match r with
  | .error e => ([req], [], .error e)
  | .ok _ =>
      ([req],
       ["Upload session completed for dataPackageId: " ++ pyOptStr st.data_package_id],
       .ok ())

/-- `_get_diip_upload_entity_url(entity_name)`: if a cache entry exists and
`datetime.now()` (first clock read, `tCheck`) is strictly before its recorded
expiration, return it with no request; otherwise POST
`/upload/{data_package_id}/entity/{entity_name}`, cache
`response["presignedUrlData"]` with expiry `datetime.now() + timedelta(minutes=55)`
(second clock read, `tFetch`, in seconds), and return it. -/
def get_diip_upload_entity_url (st : UploaderState) (entity_name : String)
    (tCheck tFetch : Nat) (outcome : LibHttpOutcome) : OpResult Json :=
  let hit :=
    match cacheLookup st.entity_url_cache entity_name with
    | some (cached_url, expiration_time) =>
        if tCheck < expiration_time then some cached_url else none
    | none => none
  match hit with
  | some cached_url =>
      { state := st, requests := [], storageRequests := [],
        logs := ["Reusing cached DIIP uploading URL for entity: " ++ entity_name],
        result := .ok cached_url }
  | none =>
      let (req, r) :=
        api_call st ("/upload/" ++ pyOptStr st.data_package_id ++ "/entity/" ++ entity_name)
          outcome
      match r with
      | .error e =>
          { state := st, requests := [req], storageRequests := [], logs := [],
            result := .error e }
      | .ok body =>
          match body.get "presignedUrlData" with
          | none =>
              { state := st, requests := [req], storageRequests := [], logs := [],
                result := .error (.keyError "presignedUrlData") }
          | some entity_url =>
              { state := { st with
                  entity_url_cache :=
                    cacheInsert st.entity_url_cache entity_name entity_url (tFetch + 55 * 60) },
                requests := [req], storageRequests := [],
                logs := ["Generated and cached entity URL for entity: " ++ entity_name],
                result := .ok entity_url }

/-- `_upload_to_s3(file_obj, entity_url, file_name)`: POST to
`entity_url["url"]` with `entity_url["fields"]` as form data and the file under
form field `file` paired with `file_name`. Status 204 logs success; any other
status logs name, status and body text, then raises
`Exception(f"Failed to upload file <file_name>")`. -/
def upload_to_s3 (entity_url : Json) (file_name : String) (content : List Nat)
    (outcome : StorageOutcome) : List StorageRequest × List String × Except PyError Unit :=
  match entity_url.get "url", entity_url.get "fields" with
  | none, _ => ([], [], .error (.keyError "url"))
  | some _, none => ([], [], .error (.keyError "fields"))
  | some u, some f =>
      let req : StorageRequest :=
        { url := u, fields := f, fileName := file_name, content := content }
      if outcome.status = 204 then
        ([req], ["File " ++ file_name ++ " uploaded successfully."], .ok ())
      else
        ([req],
         ["Failed to upload file " ++ file_name ++ ". Status: " ++
            toString outcome.status ++ ", Reason: " ++ outcome.text],
         .error (.exception ("Failed to upload file " ++ file_name)))

/-- Runtime shape of the `file` argument of `upload_file`. The constructors
separate an `io.BytesIO` value (`bytesBuffer`) from a value of an actual
subclass of `typing.BinaryIO` (`binaryIOSubclass`), because CPython's
`isinstance` against `typing.BinaryIO` is a plain subclass check which
`io.BytesIO` fails. -/
inductive FileInput where
  | path (p : String)
  | bytesBuffer (content : List Nat)
  | binaryIOSubclass (content : List Nat)
  | streamingBody (content : List Nat)
  | otherObject

/-- `isinstance(file, str)`. -/
def isinstanceStr : FileInput → Bool
  | .path _ => true
  | _ => false

/-- `isinstance(file, typing.BinaryIO)`. CPython fact (verified on 3.11):
`typing.BinaryIO` is an ordinary class and `io.BytesIO` is not a subclass of
it, so `isinstance(io.BytesIO(...), typing.BinaryIO)` is `False`; only an
instance of a genuine `typing.BinaryIO` subclass passes. -/
def typingBinaryIOCheck : FileInput → Bool
  | .binaryIOSubclass _ => true
  | _ => false

/-- `isinstance(file, botocore.response.StreamingBody)`. -/
def streamingBodyCheck : FileInput → Bool
  | .streamingBody _ => true
  | _ => false

/-- The path string of a path input (consulted only when `isinstanceStr`). -/
def FileInput.pathOf : FileInput → String
  | .path p => p
  | _ => ""

/-- The byte content carried by a stream input. -/
def FileInput.contentOf : FileInput → List Nat
  | .path _ => []
  | .bytesBuffer c => c
  | .binaryIOSubclass c => c
  | .streamingBody c => c
  | .otherObject => []

/-- `_convert_streaming_body_to_bytesio`: `BytesIO(streaming_body.read())`
then `seek(0)` — the full content in a fresh buffer positioned at 0. -/
def convert_streaming_body_to_bytesio (content : List Nat) : List Nat :=
  content

/-- `upload_file(entity_name, file, file_name=None)`. First resolves the
entity upload URL (sanitizing the entity name), then dispatches on the runtime
type of `file` exactly as the source's if/elif/else does. `fsContent` is the
content the local filesystem holds at the given path (used only by the path
branch); `storageOutcome` is the storage POST's exogenous response. -/
def upload_file (st : UploaderState) (entity_name : String) (file : FileInput)
    (file_name : Option String) (entityOutcome : LibHttpOutcome) (tCheck tFetch : Nat)
    (fsContent : List Nat) (storageOutcome : StorageOutcome) : OpResult Unit :=
  let lr := get_diip_upload_entity_url st (clean_name_for_s3 entity_name) tCheck tFetch
    entityOutcome
  match lr.result with
  | .error e =>
      { state := lr.state, requests := lr.requests, storageRequests := [],
        logs := lr.logs, result := .error e }
  | .ok entity_url =>
      if isinstanceStr file then
        let resolved :=
          if pyFalsyOptStr file_name then extract_file_name file.pathOf
          else file_name.getD ""
        let s3 := upload_to_s3 entity_url resolved fsContent storageOutcome
        { state := lr.state, requests := lr.requests, storageRequests := s3.1,
          logs := lr.logs ++ s3.2.1, result := s3.2.2 }
      else if typingBinaryIOCheck file || streamingBodyCheck file then
        if pyFalsyOptStr file_name then
          { state := lr.state, requests := lr.requests, storageRequests := [],
            logs := lr.logs,
            result := .error (.valueError
              "file_name must be provided when uploading a BinaryIO or StreamingBody object.") }
        else
          let content :=
            if streamingBodyCheck file then convert_streaming_body_to_bytesio file.contentOf
            else file.contentOf
          let s3 := upload_to_s3 entity_url (file_name.getD "") content storageOutcome
          { state := lr.state, requests := lr.requests, storageRequests := s3.1,
            logs := lr.logs ++ s3.2.1, result := s3.2.2 }
      else
        { state := lr.state, requests := lr.requests, storageRequests := [],
          logs := lr.logs,
          result := .error (.typeError
            "file must be a file path (str), a BinaryIO object, or a StreamingBody object.") }

/-- Python truthiness of `self.data_package_id` (`if self.data_package_id:`). -/
def pyTruthyOpt : Option Json → Bool
  | none => false
  | some j => j.truthy

/-- `__enter__` on a freshly constructed `DIIPUploader(base_url, api_key)`:
runs `_initialize_upload` and stores the returned id on the instance. -/
def enterScope (base_url api_key : String) (outcome : LibHttpOutcome) :
    List ApiRequest × List String × Except PyError UploaderState :=
  let st0 : UploaderState :=
    { base_url := base_url, api_key := api_key, data_package_id := none,
      entity_url_cache := [] }
  let (reqs, logs, r) := initialize_upload st0 outcome
  match r with
  | .error e => (reqs, logs, .error e)
  | .ok v => (reqs, logs, .ok { st0 with data_package_id := some v })

/-- How a scope exit ends: no exception, the in-scope exception propagating
(the `with` statement re-raises it because `__exit__` returns `None`), or an
exception raised by `__exit__` itself, which displaces the in-scope one as the
active exception. -/
inductive ExitResult where
  | normal
  | propagated (e : PyError)
  | raisedInExit (e : PyError)
deriving DecidableEq, Repr

/-- `__exit__(exc_type, exc_value, traceback)`: if `self.data_package_id` is
truthy, call `_complete_upload` (an exception there escapes `__exit__` at
once); then, if an exception is in flight, log it; then log the exit line and
return `None`, so any in-flight exception keeps propagating. -/
def exitScope (st : UploaderState) (exc : Option PyError) (completeOutcome : LibHttpOutcome) :
    List ApiRequest × List String × ExitResult :=
  let c :=
    if pyTruthyOpt st.data_package_id then complete_upload st completeOutcome
    else ([], [], .ok ())
  match c.2.2 with
  | .error e => (c.1, c.2.1, .raisedInExit e)
  | .ok _ =>
      let errLogs :=
        match exc with
        | some e => ["An error occurred: " ++ e.pyStr]
        | none => []
      (c.1, c.2.1 ++ errLogs ++ ["Exiting DIIPUploader context."],
       match exc with
       | some e => .propagated e
       | none => .normal)

/-- Overall outcome of a `with DIIPUploader(...)` statement. -/
inductive RunOutcome where
  | ok
  | error (e : PyError)
deriving DecidableEq, Repr

/-- One full `with DIIPUploader(base_url, api_key): <body>` run, with the
body's behaviour exogenous (`bodyError = some e` means the code executed while
the scope was held raised `e`). Python semantics: if `__enter__` raises, the
body and `__exit__` never run; otherwise `__exit__` always runs, receiving the
body's exception if any. -/
def scopeRun (base_url api_key : String) (initOutcome : LibHttpOutcome)
    (bodyError : Option PyError) (completeOutcome : LibHttpOutcome) :
    List ApiRequest × List String × RunOutcome :=
  match enterScope base_url api_key initOutcome with
  | (reqs, logs, .error e) => (reqs, logs, .error e)
  | (reqs, logs, .ok st) =>
      let (reqs2, logs2, xr) := exitScope st bodyError completeOutcome
      (reqs ++ reqs2, logs ++ logs2,
       match xr with
       | .normal => .ok
       | .propagated e => .error e
       | .raisedInExit e => .error e)

end DIIPUploader

namespace Script

/-- Exogenous behaviour of the try block of `dis_api_call` in `src/upload.py`:
either `requests.request` itself raised, or a response materialised with a
status code, a body text and the outcome of `response.json()` (`none` means
parsing would raise; it is consulted only on the status-200 branch, and a
parse failure there is caught by the surrounding `except`). The two `logger`
calls in the function pass the text as a stray positional argument, which the
logging module swallows internally, so they never raise. -/
inductive ScriptAttempt where
  | raisedCall
  | response (status : Nat) (text : String) (parsed : Option Json)

/-- The structured result dict `dis_api_call` returns; `response = none` models
the absence of the `response` key. -/
structure DisResult where
  status_code : Nat
  response : Option Json

/-- `dis_api_call(url, payload, headers)`: never raises past its boundary.
Returns `{'status_code': 200, 'response': response.json()}` when the status is
200, `{'status_code': response.status_code}` for any other status, and
`{'status_code': 500}` when anything in the try block raises. -/
def dis_api_call (attempt : ScriptAttempt) : DisResult :=
  match attempt with
  | .raisedCall => { status_code := 500, response := none }
  | .response status _text parsed =>
      if status = 200 then
        match parsed with
        | some j => { status_code := 200, response := some j }
        | none => { status_code := 500, response := none }
      else { status_code := status, response := none }

/-- One control-plane POST as the script's three wrappers build it (they all
call `dis_api_call` with `payload = {}` and the `x-api-key` header). -/
structure ScriptRequest where
  url : String
  apiKeyHeader : String
  payload : Json

/-- `upload_init()`: POST `base + "/upload/init"`. -/
def upload_init (base token : String) (attempt : ScriptAttempt) :
    ScriptRequest × DisResult :=
  ({ url := base ++ "/upload/init", apiKeyHeader := token, payload := .obj [] },
   dis_api_call attempt)

/-- `generate_upload_url(data_package_id, entity_name)`: POST
`base + "/upload/{id}/entity/{entity}"`; no sanitization in this variant. -/
def generate_upload_url (base token dpid entity : String) (attempt : ScriptAttempt) :
    ScriptRequest × DisResult :=
  ({ url := base ++ "/upload/" ++ dpid ++ "/entity/" ++ entity,
     apiKeyHeader := token, payload := .obj [] },
   dis_api_call attempt)

/-- `complete_upload(data_package_id)`: POST `base + "/upload/{id}/complete"`. -/
def complete_upload (base token dpid : String) (attempt : ScriptAttempt) :
    ScriptRequest × DisResult :=
  ({ url := base ++ "/upload/" ++ dpid ++ "/complete", apiKeyHeader := token,
     payload := .obj [] },
   dis_api_call attempt)

/-- `upload_files_to_s3(files_to_upload, url_data)`: one storage POST per
file; each response's status only drives a log line (success or failure) and
the loop continues either way, so only the count of POSTs is recorded. A
missing `url`/`fields` key in `url_data` would raise on the first file. Local
file opens are assumed to succeed. -/
def upload_files_to_s3 (files : List String) (url_data : Json) :
    Nat × Option PyError :=
  match files with
  | [] => (0, none)
  | _ :: _ =>
      match url_data.get "url", url_data.get "fields" with
      | none, _ => (0, some (.keyError "url"))
      | some _, none => (0, some (.keyError "fields"))
      | some _, some _ => (files.length, none)

/-- Observable outcome of one run of the script's `__main__` block: what it
printed to standard output, its exit status (1 from `sys.exit(1)` or from an
uncaught exception, else 0), the control-plane requests it issued, the number
of storage POSTs, and the uncaught exception if one escaped. Log lines
(informational/error logger output) are not part of this record. -/
structure ScriptResult where
  stdout : List String
  exitStatus : Nat
  controlRequests : List ScriptRequest
  storagePosts : Nat
  uncaught : Option PyError

/-- The script's `__main__` block. `argv` is `sys.argv` (program name first);
`base`/`token` are `credentials.dis["UAT"]["url"]`/`["token"]`. Fewer than two
arguments after the program name prints the usage line and exits 1 before any
call. Otherwise: init; on status 200, locate; on status 200, upload every
remaining argument, then complete. A non-200 at either control-plane step
silently stops the sequence with exit status 0. -/
def script_main (argv : List String) (base token : String)
    (initAttempt urlAttempt completeAttempt : ScriptAttempt) : ScriptResult :=
  if argv.length < 3 then
    { stdout := ["Usage: python " ++ argv.headD "" ++ " <entity_name> <file1> <file2> ..."],
      exitStatus := 1, controlRequests := [], storagePosts := 0, uncaught := none }
  else
    let i := upload_init base token initAttempt
    if i.2.status_code = 200 then
      match i.2.response with
      | none =>
          { stdout := [], exitStatus := 1, controlRequests := [i.1],
            storagePosts := 0, uncaught := some (.keyError "response") }
      | some resp =>
          match resp.get "dataPackageId" with
          | none =>
              { stdout := [], exitStatus := 1, controlRequests := [i.1],
                storagePosts := 0, uncaught := some (.keyError "dataPackageId") }
          | some dpid =>
              let g := generate_upload_url base token dpid.pyStr (argv.getD 1 "") urlAttempt
              if g.2.status_code = 200 then
                match g.2.response with
                | none =>
                    { stdout := [], exitStatus := 1, controlRequests := [i.1, g.1],
                      storagePosts := 0, uncaught := some (.keyError "response") }
                | some resp2 =>
                    match resp2.get "presignedUrlData" with
                    | none =>
                        { stdout := [], exitStatus := 1, controlRequests := [i.1, g.1],
                          storagePosts := 0, uncaught := some (.keyError "presignedUrlData") }
                    | some url_data =>
                        let up := upload_files_to_s3 (argv.drop 2) url_data
                        match up.2 with
                        | some e =>
                            { stdout := [], exitStatus := 1, controlRequests := [i.1, g.1],
                              storagePosts := up.1, uncaught := some e }
                        | none =>
                            let c := complete_upload base token dpid.pyStr completeAttempt
                            { stdout := [], exitStatus := 0,
                              controlRequests := [i.1, g.1, c.1],
                              storagePosts := up.1, uncaught := none }
              else
                { stdout := [], exitStatus := 0, controlRequests := [i.1, g.1],
                  storagePosts := 0, uncaught := none }
    else
      { stdout := [], exitStatus := 0, controlRequests := [i.1],
        storagePosts := 0, uncaught := none }

end Script

/-! Shared helper lemmas. -/

namespace DIIPUploader

theorem replaceChar_go_map (o n : Char) (l : List Char) :
    replaceChar.go o n l = l.map fun c => if c = o then n else c := by
  induction l with
  | nil => rfl
  | cons c cs ih => simp [replaceChar.go, ih]

theorem clean_name_eq_map (s : String) :
    clean_name_for_s3 s =
      String.mk (s.toList.map fun c => if c = ' ' ∨ c = '-' then '_' else c) := by
  unfold clean_name_for_s3 replaceChar
  rw [replaceChar_go_map, replaceChar_go_map]
  show String.mk (List.map _ (String.toList (String.mk _))) = _
  rw [show ∀ l : List Char, (String.mk l).toList = l from fun _ => rfl]
  rw [List.map_map]
  congr 1
  apply List.map_congr_left
  intro c _
  by_cases h1 : c = ' '
  · simp [h1]
  · by_cases h2 : c = '-' <;> simp [h1, h2]

theorem cacheLookup_cacheInsert_self (c : EntityCache) (k : String) (v : Json) (e : Nat) :
    cacheLookup (cacheInsert c k v e) k = some (v, e) := by
  induction c with
  | nil => simp [cacheInsert, cacheLookup]
  | cons hd tl ih =>
      obtain ⟨k2, v2, e2⟩ := hd
      by_cases h : k2 = k <;> simp [cacheInsert, cacheLookup, h, ih]

theorem get_url_hit (st : UploaderState) (name : String) (tCheck tFetch : Nat)
    (o : LibHttpOutcome) (u : Json) (exp : Nat)
    (hhit : cacheLookup st.entity_url_cache name = some (u, exp)) (hfresh : tCheck < exp) :
    get_diip_upload_entity_url st name tCheck tFetch o =
      { state := st, requests := [], storageRequests := [],
        logs := ["Reusing cached DIIP uploading URL for entity: " ++ name],
        result := .ok u } := by
  unfold get_diip_upload_entity_url
  simp [hhit, hfresh]

theorem get_url_refresh (st : UploaderState) (name : String) (tCheck tFetch : Nat)
    (body u : Json)
    (hstale : cacheLookup st.entity_url_cache name = none ∨
      ∃ u0 exp, cacheLookup st.entity_url_cache name = some (u0, exp) ∧ exp ≤ tCheck)
    (hbody : body.get "presignedUrlData" = some u) :
    get_diip_upload_entity_url st name tCheck tFetch (.response 200 body) =
      { state := { st with
          entity_url_cache := cacheInsert st.entity_url_cache name u (tFetch + 55 * 60) },
        requests := [
          { method := "POST",
            url := st.base_url ++ ("/upload/" ++ pyOptStr st.data_package_id ++
              "/entity/" ++ name),
            apiKeyHeader := st.api_key, payload := none }],
        storageRequests := [],
        logs := ["Generated and cached entity URL for entity: " ++ name],
        result := .ok u } := by
  unfold get_diip_upload_entity_url api_call
  rcases hstale with h | ⟨u0, exp, h, hle⟩
  · simp [h, hbody]
  · simp [h, hbody, Nat.not_lt.mpr hle]

theorem upload_file_requests_state (st : UploaderState) (e : String) (file : FileInput)
    (fn : Option String) (o : LibHttpOutcome) (tc tf : Nat) (fs : List Nat)
    (so : StorageOutcome) :
    (upload_file st e file fn o tc tf fs so).requests =
      (get_diip_upload_entity_url st (clean_name_for_s3 e) tc tf o).requests ∧
    (upload_file st e file fn o tc tf fs so).state =
      (get_diip_upload_entity_url st (clean_name_for_s3 e) tc tf o).state := by
  unfold upload_file
  cases h : (get_diip_upload_entity_url st (clean_name_for_s3 e) tc tf o).result with
  | error err => simp [h]
  | ok u =>
      cases file <;>
        simp [h, isinstanceStr, typingBinaryIOCheck, streamingBodyCheck] <;>
        split <;> simp

theorem complete_upload_error (st : UploaderState) (co : LibHttpOutcome) (ce : PyError)
    (hc : (complete_upload st co).2.2 = .error ce) :
    complete_upload st co =
      ([{ method := "POST",
          url := st.base_url ++ ("/upload/" ++ pyOptStr st.data_package_id ++ "/complete"),
          apiKeyHeader := st.api_key, payload := none }], [], .error ce) := by
  unfold complete_upload api_call at hc ⊢
  cases co with
  | raised e2 =>
      simp at hc
      simp [hc]
  | response s b =>
      by_cases h4 : 400 ≤ s ∧ s < 600 <;> simp [h4] at hc ⊢
      simp [hc]

end DIIPUploader

/-! Claim theorems. -/

namespace DIIPUploader

/-- Claim C4 counterexample: for a storage response of status 400 with body
"Bad Request" and destination name "f.txt", the raised failure's message is
exactly "Failed to upload file f.txt": it carries the file name but neither
the status code nor the response body text, contrary to the claim that the
message carries all three. -/
theorem C4_counterexample :
    (upload_to_s3 (.obj [("url", .str "https://s3"), ("fields", .obj [])]) "f.txt" []
        { status := 400, text := "Bad Request" }).2.2 =
      .error (.exception "Failed to upload file f.txt") ∧
    ¬ List.IsInfix "400".toList "Failed to upload file f.txt".toList ∧
    ¬ List.IsInfix "Bad Request".toList "Failed to upload file f.txt".toList := by
  refine ⟨rfl, ?_, ?_⟩ <;> decide

/-- Claim C4 (amended): in the primary library path, status 204 is the sole
success signal of the storage transfer; any other status raises a failure whose
message carries the destination file name, while the status code and the
response body text are carried by the error log line, not by the message. -/
theorem C4_status_204_sole_success (entity_url u f : Json) (file_name : String)
    (content : List Nat) (outcome : StorageOutcome)
    (hu : entity_url.get "url" = some u) (hf : entity_url.get "fields" = some f) :
    (outcome.status = 204 →
      upload_to_s3 entity_url file_name content outcome =
        ([{ url := u, fields := f, fileName := file_name, content := content }],
         ["File " ++ file_name ++ " uploaded successfully."], .ok ())) ∧
    (outcome.status ≠ 204 →
      upload_to_s3 entity_url file_name content outcome =
        ([{ url := u, fields := f, fileName := file_name, content := content }],
         ["Failed to upload file " ++ file_name ++ ". Status: " ++
            toString outcome.status ++ ", Reason: " ++ outcome.text],
         .error (.exception ("Failed to upload file " ++ file_name)))) := by
  constructor <;> intro h <;> unfold upload_to_s3 <;> simp [hu, hf, h]

/-- Claim C4 witness: the amended theorem applied at the test suite's concrete
failure (status 400, body "Bad Request") and at a 204 success. -/
theorem C4_witness :
    upload_to_s3 (.obj [("url", .str "https://s3"), ("fields", .obj [])]) "test_file.txt" []
        { status := 400, text := "Bad Request" } =
      ([{ url := .str "https://s3", fields := .obj [], fileName := "test_file.txt",
          content := [] }],
       ["Failed to upload file test_file.txt. Status: 400, Reason: Bad Request"],
       .error (.exception "Failed to upload file test_file.txt")) ∧
    upload_to_s3 (.obj [("url", .str "https://s3"), ("fields", .obj [])]) "test_file.txt" []
        { status := 204, text := "" } =
      ([{ url := .str "https://s3", fields := .obj [], fileName := "test_file.txt",
          content := [] }],
       ["File test_file.txt uploaded successfully."], .ok ()) :=
  ⟨(C4_status_204_sole_success (.obj [("url", .str "https://s3"), ("fields", .obj [])])
      (.str "https://s3") (.obj []) "test_file.txt" []
      { status := 400, text := "Bad Request" } rfl rfl).2 (by decide),
   (C4_status_204_sole_success (.obj [("url", .str "https://s3"), ("fields", .obj [])])
      (.str "https://s3") (.obj []) "test_file.txt" []
      { status := 204, text := "" } rfl rfl).1 rfl⟩

/-- Claim C5: for every entity-location lookup keyed by a (sanitized) entity
name: if a cache entry exists and the lookup time is strictly before its
recorded expiry, the cached location is returned with zero control-plane
requests (whatever the network would have answered); otherwise (entry absent
or expired) exactly one Request-Entity-Upload-Location call is made, its
result is stored under the name with expiry exactly 55 minutes after the fresh
fetch, and the fresh result is returned. -/
theorem C5_entity_url_cache (st : UploaderState) (name : String) (tCheck tFetch : Nat)
    (o : LibHttpOutcome) (body u fresh : Json) (exp : Nat) :
    (cacheLookup st.entity_url_cache name = some (u, exp) → tCheck < exp →
      get_diip_upload_entity_url st name tCheck tFetch o =
        { state := st, requests := [], storageRequests := [],
          logs := ["Reusing cached DIIP uploading URL for entity: " ++ name],
          result := .ok u }) ∧
    ((cacheLookup st.entity_url_cache name = none ∨
        ∃ u0 exp0, cacheLookup st.entity_url_cache name = some (u0, exp0) ∧ exp0 ≤ tCheck) →
      body.get "presignedUrlData" = some fresh →
      get_diip_upload_entity_url st name tCheck tFetch (.response 200 body) =
        { state := { st with
            entity_url_cache := cacheInsert st.entity_url_cache name fresh (tFetch + 55 * 60) },
          requests := [
            { method := "POST",
              url := st.base_url ++ ("/upload/" ++ pyOptStr st.data_package_id ++
                "/entity/" ++ name),
              apiKeyHeader := st.api_key, payload := none }],
          storageRequests := [],
          logs := ["Generated and cached entity URL for entity: " ++ name],
          result := .ok fresh } ∧
      cacheLookup (cacheInsert st.entity_url_cache name fresh (tFetch + 55 * 60)) name =
        some (fresh, tFetch + 55 * 60)) := by
  constructor
  · exact fun hhit hfresh => get_url_hit st name tCheck tFetch o u exp hhit hfresh
  · exact fun hstale hbody =>
      ⟨get_url_refresh st name tCheck tFetch body fresh hstale hbody,
       cacheLookup_cacheInsert_self _ _ _ _⟩

/-- Claim C5 witness: a hit (expiry 100, lookup at 50) returns the cached
value without consulting the network (the outcome here is a raising one and is
never reached), and a miss on an empty cache issues the single location
request and caches the fresh value with expiry 10 + 3300. -/
theorem C5_witness :
    get_diip_upload_entity_url
        { base_url := "https://example.com", api_key := "k",
          data_package_id := some (.str "pkg"),
          entity_url_cache := [("orders", .str "u1", 100)] }
        "orders" 50 60 (.raised (.other "network would raise")) =
      { state :=
          { base_url := "https://example.com", api_key := "k",
            data_package_id := some (.str "pkg"),
            entity_url_cache := [("orders", .str "u1", 100)] },
        requests := [], storageRequests := [],
        logs := ["Reusing cached DIIP uploading URL for entity: orders"],
        result := .ok (.str "u1") } ∧
    get_diip_upload_entity_url
        { base_url := "https://example.com", api_key := "k",
          data_package_id := some (.str "pkg"), entity_url_cache := [] }
        "orders" 0 10 (.response 200 (.obj [("presignedUrlData", .str "u2")])) =
      { state :=
          { base_url := "https://example.com", api_key := "k",
            data_package_id := some (.str "pkg"),
            entity_url_cache := [("orders", .str "u2", 3310)] },
        requests := [
          { method := "POST", url := "https://example.com/upload/pkg/entity/orders",
            apiKeyHeader := "k", payload := none }],
        storageRequests := [],
        logs := ["Generated and cached entity URL for entity: orders"],
        result := .ok (.str "u2") } :=
  ⟨(C5_entity_url_cache
      { base_url := "https://example.com", api_key := "k",
        data_package_id := some (.str "pkg"),
        entity_url_cache := [("orders", .str "u1", 100)] }
      "orders" 50 60 (.raised (.other "network would raise")) (.obj []) (.str "u1")
      (.str "u1") 100).1 rfl (by decide),
   ((C5_entity_url_cache
      { base_url := "https://example.com", api_key := "k",
        data_package_id := some (.str "pkg"), entity_url_cache := [] }
      "orders" 0 10 (.response 200 (.obj [("presignedUrlData", .str "u2")]))
      (.obj [("presignedUrlData", .str "u2")]) (.str "u2") (.str "u2") 0).2
      (Or.inl rfl) rfl).1⟩

/-- Claim C7: the sanitizer is a pure function replacing every space and every
hyphen of the entity name with an underscore (so "My Entity-Name" maps to
"My_Entity_Name"), and in the scoped-session path it is applied before every
entity-location lookup: on a fresh (uncached) name, whatever the file input
is, the single location request's path segment is the sanitized name and the
result is cached under the sanitized name. -/
theorem C7_sanitizer (s : String) (st : UploaderState) (entity_name : String)
    (file : FileInput) (file_name : Option String) (tCheck tFetch : Nat)
    (fs : List Nat) (so : StorageOutcome) (body u : Json) :
    clean_name_for_s3 s =
      String.mk (s.toList.map fun c => if c = ' ' ∨ c = '-' then '_' else c) ∧
    clean_name_for_s3 "My Entity-Name" = "My_Entity_Name" ∧
    (cacheLookup st.entity_url_cache (clean_name_for_s3 entity_name) = none →
      body.get "presignedUrlData" = some u →
      (upload_file st entity_name file file_name (.response 200 body)
          tCheck tFetch fs so).requests =
        [{ method := "POST",
           url := st.base_url ++ ("/upload/" ++ pyOptStr st.data_package_id ++
             "/entity/" ++ clean_name_for_s3 entity_name),
           apiKeyHeader := st.api_key, payload := none }] ∧
      cacheLookup
        (upload_file st entity_name file file_name (.response 200 body)
          tCheck tFetch fs so).state.entity_url_cache
        (clean_name_for_s3 entity_name) = some (u, tFetch + 55 * 60)) := by
  refine ⟨clean_name_eq_map s, by decide, fun hmiss hbody => ?_⟩
  have h1 := upload_file_requests_state st entity_name file file_name
    (.response 200 body) tCheck tFetch fs so
  have h2 := get_url_refresh st (clean_name_for_s3 entity_name) tCheck tFetch body u
    (Or.inl hmiss) hbody
  constructor
  · rw [h1.1, h2]
  · rw [h1.2, h2]
    exact cacheLookup_cacheInsert_self _ _ _ _

/-- Claim C7 witness: uploading a local path to entity "My Entity-Name" on an
empty cache issues the location request for path segment "My_Entity_Name" and
caches under that key. -/
theorem C7_witness :
    (upload_file
        { base_url := "https://example.com", api_key := "k",
          data_package_id := some (.str "pkg"), entity_url_cache := [] }
        "My Entity-Name" (.path "data/f.csv") none
        (.response 200 (.obj [("presignedUrlData", .str "u")])) 0 0 []
        { status := 204, text := "" }).requests =
      [{ method := "POST",
         url := "https://example.com/upload/pkg/entity/My_Entity_Name",
         apiKeyHeader := "k", payload := none }] ∧
    cacheLookup
      (upload_file
        { base_url := "https://example.com", api_key := "k",
          data_package_id := some (.str "pkg"), entity_url_cache := [] }
        "My Entity-Name" (.path "data/f.csv") none
        (.response 200 (.obj [("presignedUrlData", .str "u")])) 0 0 []
        { status := 204, text := "" }).state.entity_url_cache
      "My_Entity_Name" = some (.str "u", 3300) :=
  (C7_sanitizer ""
    { base_url := "https://example.com", api_key := "k",
      data_package_id := some (.str "pkg"), entity_url_cache := [] }
    "My Entity-Name" (.path "data/f.csv") none 0 0 []
    { status := 204, text := "" }
    (.obj [("presignedUrlData", .str "u")]) (.str "u")).2.2 rfl rfl

/-- Claim C6: for every session instance, Initialize issues exactly one POST to
`base_url + "/upload/init"` with the `x-api-key` header equal to the configured
api key and an absent JSON payload, and on success returns exactly the
dataPackageId string from the response body. -/
theorem C6_initialize_request_and_result (st : UploaderState) (body : Json) (id : String)
    (hid : body.get "dataPackageId" = some (.str id)) :
    initialize_upload st (.response 200 body) =
      ([{ method := "POST", url := st.base_url ++ "/upload/init",
          apiKeyHeader := st.api_key, payload := none }],
       ["Initialized upload session with dataPackageId: " ++ id], .ok (.str id)) := by
  unfold initialize_upload api_call
  simp [hid, Json.pyStr]

/-- Claim C6 witness: the mocked success of the test suite,
`{"dataPackageId": "12345"}` against base url "https://example.com" and api
key "test-api-key". -/
theorem C6_witness :
    initialize_upload
        { base_url := "https://example.com", api_key := "test-api-key",
          data_package_id := none, entity_url_cache := [] }
        (.response 200 (.obj [("dataPackageId", .str "12345")])) =
      ([{ method := "POST", url := "https://example.com/upload/init",
          apiKeyHeader := "test-api-key", payload := none }],
       ["Initialized upload session with dataPackageId: 12345"], .ok (.str "12345")) :=
  C6_initialize_request_and_result
    { base_url := "https://example.com", api_key := "test-api-key",
      data_package_id := none, entity_url_cache := [] }
    (.obj [("dataPackageId", .str "12345")]) "12345" rfl

/-- Claim C1 counterexample: a storage-read-response stream with no explicit
destination name does fail with ValueError, but only after the entity-location
lookup: on an empty cache the entity-location control-plane request has
already been issued when the failure is raised, contrary to the claim that no
such request occurs. -/
theorem C1_counterexample :
    (upload_file
        { base_url := "https://example.com", api_key := "key",
          data_package_id := some (.str "pkg-1"), entity_url_cache := [] }
        "orders" (.streamingBody [1, 2, 3]) none
        (.response 200 (.obj [("presignedUrlData",
          .obj [("url", .str "https://storage.example"), ("fields", .obj [])])]))
        0 0 [] { status := 204, text := "" }).result =
      .error (.valueError
        "file_name must be provided when uploading a BinaryIO or StreamingBody object.") ∧
    (upload_file
        { base_url := "https://example.com", api_key := "key",
          data_package_id := some (.str "pkg-1"), entity_url_cache := [] }
        "orders" (.streamingBody [1, 2, 3]) none
        (.response 200 (.obj [("presignedUrlData",
          .obj [("url", .str "https://storage.example"), ("fields", .obj [])])]))
        0 0 [] { status := 204, text := "" }).requests =
      [{ method := "POST", url := "https://example.com/upload/pkg-1/entity/orders",
         apiKeyHeader := "key", payload := none }] :=
  ⟨rfl, rfl⟩

/-- Claim C1 (amended): uploading without an explicit destination name fails
before any storage transfer — with ValueError for a storage-read-response
stream and, because the runtime type check against typing.BinaryIO is False
for io.BytesIO, with the unsupported-input TypeError for an in-memory stream —
but the entity-location lookup runs first: on an uncached entity name exactly
one entity-location control-plane request is issued before the failure. -/
theorem C1_no_name_fails_after_lookup (st : UploaderState) (entity_name : String)
    (c fs : List Nat) (file_name : Option String) (body u : Json) (tc tf : Nat)
    (so : StorageOutcome)
    (hfn : pyFalsyOptStr file_name = true)
    (hmiss : cacheLookup st.entity_url_cache (clean_name_for_s3 entity_name) = none)
    (hbody : body.get "presignedUrlData" = some u) :
    (upload_file st entity_name (.streamingBody c) file_name (.response 200 body)
        tc tf fs so).result =
      .error (.valueError
        "file_name must be provided when uploading a BinaryIO or StreamingBody object.") ∧
    (upload_file st entity_name (.bytesBuffer c) file_name (.response 200 body)
        tc tf fs so).result =
      .error (.typeError
        "file must be a file path (str), a BinaryIO object, or a StreamingBody object.") ∧
    (upload_file st entity_name (.streamingBody c) file_name (.response 200 body)
        tc tf fs so).storageRequests = [] ∧
    (upload_file st entity_name (.bytesBuffer c) file_name (.response 200 body)
        tc tf fs so).storageRequests = [] ∧
    (upload_file st entity_name (.streamingBody c) file_name (.response 200 body)
        tc tf fs so).requests =
      [{ method := "POST",
         url := st.base_url ++ ("/upload/" ++ pyOptStr st.data_package_id ++
           "/entity/" ++ clean_name_for_s3 entity_name),
         apiKeyHeader := st.api_key, payload := none }] ∧
    (upload_file st entity_name (.bytesBuffer c) file_name (.response 200 body)
        tc tf fs so).requests =
      [{ method := "POST",
         url := st.base_url ++ ("/upload/" ++ pyOptStr st.data_package_id ++
           "/entity/" ++ clean_name_for_s3 entity_name),
         apiKeyHeader := st.api_key, payload := none }] := by
  have h2 := get_url_refresh st (clean_name_for_s3 entity_name) tc tf body u
    (Or.inl hmiss) hbody
  refine ⟨?_, ?_, ?_, ?_, ?_, ?_⟩ <;>
    simp [upload_file, h2, isinstanceStr, typingBinaryIOCheck, streamingBodyCheck, hfn]

/-- Claim C1 witness: the amended theorem at a concrete uncached scenario. -/
theorem C1_witness :
    (upload_file
        { base_url := "https://example.com", api_key := "key",
          data_package_id := some (.str "pkg-1"), entity_url_cache := [] }
        "reports" (.bytesBuffer [7]) none
        (.response 200 (.obj [("presignedUrlData", .str "u")]))
        0 0 [] { status := 204, text := "" }).result =
      .error (.typeError
        "file must be a file path (str), a BinaryIO object, or a StreamingBody object.") ∧
    (upload_file
        { base_url := "https://example.com", api_key := "key",
          data_package_id := some (.str "pkg-1"), entity_url_cache := [] }
        "reports" (.bytesBuffer [7]) none
        (.response 200 (.obj [("presignedUrlData", .str "u")]))
        0 0 [] { status := 204, text := "" }).requests =
      [{ method := "POST", url := "https://example.com/upload/pkg-1/entity/reports",
         apiKeyHeader := "key", payload := none }] :=
  ⟨(C1_no_name_fails_after_lookup
      { base_url := "https://example.com", api_key := "key",
        data_package_id := some (.str "pkg-1"), entity_url_cache := [] }
      "reports" [7] [] none (.obj [("presignedUrlData", .str "u")]) (.str "u") 0 0
      { status := 204, text := "" } rfl rfl rfl).2.1,
   (C1_no_name_fails_after_lookup
      { base_url := "https://example.com", api_key := "key",
        data_package_id := some (.str "pkg-1"), entity_url_cache := [] }
      "reports" [7] [] none (.obj [("presignedUrlData", .str "u")]) (.str "u") 0 0
      { status := 204, text := "" } rfl rfl rfl).2.2.2.2.2⟩

/-- Claim C2, evaluated at the failing input of the repository's own test
test_upload_file_in_memory: an in-memory io.BytesIO stream with an explicit
destination name is rejected by the runtime type dispatch with the
unsupported-input TypeError — `isinstance(file, typing.BinaryIO)` is False for
io.BytesIO — and no storage POST happens, although the method's docstring and
the test expect the stream to be accepted and uploaded as-is. -/
theorem C2_typeerror_on_bytesbuffer :
    (upload_file
        { base_url := "https://example.com", api_key := "test-api-key",
          data_package_id := some (.str "12345"),
          entity_url_cache := [("test_entity",
            .obj [("url", .str "https://s3.amazonaws.com"), ("fields", .obj [])], 100)] }
        "test_entity" (.bytesBuffer [116, 101, 115, 116]) (some "test_file.txt")
        (.response 200 (.obj [])) 0 0 [] { status := 204, text := "" }).result =
      .error (.typeError
        "file must be a file path (str), a BinaryIO object, or a StreamingBody object.") ∧
    (upload_file
        { base_url := "https://example.com", api_key := "test-api-key",
          data_package_id := some (.str "12345"),
          entity_url_cache := [("test_entity",
            .obj [("url", .str "https://s3.amazonaws.com"), ("fields", .obj [])], 100)] }
        "test_entity" (.bytesBuffer [116, 101, 115, 116]) (some "test_file.txt")
        (.response 200 (.obj [])) 0 0 [] { status := 204, text := "" }).storageRequests =
      [] :=
  ⟨rfl, rfl⟩

/-- Claim C3 counterexample: when Initialize succeeds with the recorded
dataPackageId being the empty string, scope release issues no Complete call at
all (the release guard tests Python truthiness, and "" is falsy): the whole
run's request trace is just the init request, contrary to the claim that the
Complete call is issued exactly once. -/
theorem C3_counterexample :
    (scopeRun "https://example.com" "key"
        (.response 200 (.obj [("dataPackageId", .str "")])) none
        (.response 200 (.obj []))).1 =
      [{ method := "POST", url := "https://example.com/upload/init",
         apiKeyHeader := "key", payload := none }] ∧
    (scopeRun "https://example.com" "key"
        (.response 200 (.obj [("dataPackageId", .str "")])) none
        (.response 200 (.obj []))).2.2 = .ok :=
  ⟨rfl, rfl⟩

/-- Claim C3 (amended): for every acquired scope in which Initialize succeeded
with a nonempty (truthy) dataPackageId recorded, and whose Complete call
succeeds, release issues the Complete call exactly once; an error raised
inside the scope is logged after the completion log and still propagates to
the caller; without an in-scope error the run ends normally; and if
Initialize itself failed, release issues no Complete call and the initialize
failure propagates. -/
theorem C3_release_completes_once (base api id : String) (body cbody : Json)
    (bodyError : Option PyError)
    (hid : body.get "dataPackageId" = some (.str id)) (hne : id ≠ "") :
    (scopeRun base api (.response 200 body) bodyError (.response 200 cbody)).1 =
      [{ method := "POST", url := base ++ "/upload/init", apiKeyHeader := api,
         payload := none },
       { method := "POST", url := base ++ ("/upload/" ++ id ++ "/complete"),
         apiKeyHeader := api, payload := none }] ∧
    (∀ e, bodyError = some e →
      (scopeRun base api (.response 200 body) bodyError (.response 200 cbody)).2.1 =
        ["Initialized upload session with dataPackageId: " ++ id,
         "Upload session completed for dataPackageId: " ++ id,
         "An error occurred: " ++ e.pyStr,
         "Exiting DIIPUploader context."] ∧
      (scopeRun base api (.response 200 body) bodyError (.response 200 cbody)).2.2 =
        .error e) ∧
    (bodyError = none →
      (scopeRun base api (.response 200 body) bodyError (.response 200 cbody)).2.1 =
        ["Initialized upload session with dataPackageId: " ++ id,
         "Upload session completed for dataPackageId: " ++ id,
         "Exiting DIIPUploader context."] ∧
      (scopeRun base api (.response 200 body) bodyError (.response 200 cbody)).2.2 =
        .ok) ∧
    (∀ e0, scopeRun base api (.raised e0) bodyError (.response 200 cbody) =
      ([{ method := "POST", url := base ++ "/upload/init", apiKeyHeader := api,
          payload := none }], [], .error e0)) := by
  have hie : id.isEmpty = false := by
    cases h : id.isEmpty
    · rfl
    · exact absurd ((String.isEmpty_iff id).mp h) hne
  refine ⟨?_, ?_, ?_, ?_⟩
  · simp [scopeRun, enterScope, initialize_upload, complete_upload, exitScope,
      api_call, pyTruthyOpt, Json.truthy, Json.pyStr, pyOptStr, hid, hie]
  · intro e he
    subst he
    constructor <;>
      simp [scopeRun, enterScope, initialize_upload, complete_upload, exitScope,
        api_call, pyTruthyOpt, Json.truthy, Json.pyStr, pyOptStr, hid, hie]
  · intro he
    subst he
    constructor <;>
      simp [scopeRun, enterScope, initialize_upload, complete_upload, exitScope,
        api_call, pyTruthyOpt, Json.truthy, Json.pyStr, pyOptStr, hid, hie]
  · intro e0
    simp [scopeRun, enterScope, initialize_upload, api_call]

/-- Claim C3 witness: a concrete run with id "12345", an in-scope error, and a
succeeding Complete call. -/
theorem C3_witness :
    (scopeRun "https://example.com" "key"
        (.response 200 (.obj [("dataPackageId", .str "12345")]))
        (some (.other "boom")) (.response 200 (.obj []))).1 =
      [{ method := "POST", url := "https://example.com/upload/init",
         apiKeyHeader := "key", payload := none },
       { method := "POST", url := "https://example.com/upload/12345/complete",
         apiKeyHeader := "key", payload := none }] ∧
    (scopeRun "https://example.com" "key"
        (.response 200 (.obj [("dataPackageId", .str "12345")]))
        (some (.other "boom")) (.response 200 (.obj []))).2.2 =
      .error (.other "boom") :=
  ⟨(C3_release_completes_once "https://example.com" "key" "12345"
      (.obj [("dataPackageId", .str "12345")]) (.obj []) (some (.other "boom"))
      rfl (by decide)).1,
   ((C3_release_completes_once "https://example.com" "key" "12345"
      (.obj [("dataPackageId", .str "12345")]) (.obj []) (some (.other "boom"))
      rfl (by decide)).2.1 (.other "boom") rfl).2⟩

/-- Claim C10: if the Complete call raises during scope release while an
in-scope error is in flight, the release step logs nothing (in particular the
in-scope error is never logged), and what escapes the scope is the Complete
failure, not the original in-scope error. -/
theorem C10_complete_failure_displaces (st : UploaderState) (e ce : PyError)
    (co : LibHttpOutcome) (ht : pyTruthyOpt st.data_package_id = true)
    (hc : (complete_upload st co).2.2 = .error ce) :
    exitScope st (some e) co =
      ([{ method := "POST",
          url := st.base_url ++ ("/upload/" ++ pyOptStr st.data_package_id ++ "/complete"),
          apiKeyHeader := st.api_key, payload := none }], [], .raisedInExit ce) ∧
    ExitResult.raisedInExit ce ≠ ExitResult.propagated e := by
  have h1 := complete_upload_error st co ce hc
  constructor
  · simp [exitScope, ht, h1]
  · simp

/-- Claim C10 witness: a concrete session whose Complete call answers 500
while error "boom" is in flight. -/
theorem C10_witness :
    exitScope
        { base_url := "https://example.com", api_key := "key",
          data_package_id := some (.str "12345"), entity_url_cache := [] }
        (some (.other "boom")) (.response 500 (.obj [])) =
      ([{ method := "POST", url := "https://example.com/upload/12345/complete",
          apiKeyHeader := "key", payload := none }], [],
       .raisedInExit (.httpError 500)) :=
  (C10_complete_failure_displaces
    { base_url := "https://example.com", api_key := "key",
      data_package_id := some (.str "12345"), entity_url_cache := [] }
    (.other "boom") (.httpError 500) (.response 500 (.obj [])) rfl rfl).1

end DIIPUploader

namespace Script

/-- Claim C8 counterexample: a response with status 200 whose body is not
parseable JSON makes `dis_api_call` return `{'status_code': 500}` (the parse
failure is caught by the except clause), not the
`{'status_code': 200, 'response': ...}` result the claim requires exactly when
the status is 200. -/
theorem C8_counterexample :
    dis_api_call (.response 200 "<html>not json</html>" none) =
      { status_code := 500, response := none } ∧
    (dis_api_call (.response 200 "<html>not json</html>" none)).status_code ≠ 200 := by
  exact ⟨rfl, by decide⟩

/-- Claim C8 (amended): `dis_api_call` never raises past its boundary (it is a
total function into result dicts) and returns `{status_code: 200, response:
<parsed JSON>}` exactly when the response status is 200 and its body parses as
JSON; `{status_code: <status>}` for any other status; and `{status_code: 500}`
when the call raises or when a 200 body fails to parse. -/
theorem C8_dis_api_call_cases (s : Nat) (t : String) (p : Option Json) :
    dis_api_call .raisedCall = { status_code := 500, response := none } ∧
    (∀ j : Json, dis_api_call (.response 200 t (some j)) =
      { status_code := 200, response := some j }) ∧
    (s ≠ 200 → dis_api_call (.response s t p) = { status_code := s, response := none }) ∧
    dis_api_call (.response 200 t none) = { status_code := 500, response := none } := by
  refine ⟨rfl, fun j => rfl, fun h => ?_, rfl⟩
  unfold dis_api_call
  simp [h]

/-- Claim C8 witness: the amended theorem applied at status 404 with a parsed
body present, and the 200-with-JSON case at a concrete body. -/
theorem C8_witness :
    dis_api_call (.response 404 "not found" (some (.obj []))) =
      { status_code := 404, response := none } ∧
    dis_api_call (.response 200 "ok" (some (.obj [("dataPackageId", .str "12345")]))) =
      { status_code := 200, response := some (.obj [("dataPackageId", .str "12345")]) } :=
  ⟨(C8_dis_api_call_cases 404 "not found" (some (.obj []))).2.2.1 (by decide),
   (C8_dis_api_call_cases 404 "ok" (some (.obj []))).2.1
     (.obj [("dataPackageId", .str "12345")])⟩

/-- Claim C9: invoking the script with fewer than two positional arguments
after the program name prints the usage line (which contains the invoked
program name) to standard output, exits with status 1, and performs no network
calls (no control-plane requests and no storage POSTs). -/
theorem C9_usage_guard (prog : String) (rest : List String) (base token : String)
    (a1 a2 a3 : ScriptAttempt) (h : rest.length < 2) :
    script_main (prog :: rest) base token a1 a2 a3 =
      { stdout := ["Usage: python " ++ prog ++ " <entity_name> <file1> <file2> ..."],
        exitStatus := 1, controlRequests := [], storagePosts := 0, uncaught := none } ∧
    List.IsInfix prog.toList
      ("Usage: python " ++ prog ++ " <entity_name> <file1> <file2> ...").toList := by
  constructor
  · unfold script_main
    rw [if_pos (show (prog :: rest).length < 3 by simpa using Nat.succ_lt_succ h)]
    rfl
  · refine ⟨"Usage: python ".toList, " <entity_name> <file1> <file2> ...".toList, ?_⟩
    show "Usage: python ".data ++ prog.data ++ " <entity_name> <file1> <file2> ...".data =
      ("Usage: python " ++ prog ++ " <entity_name> <file1> <file2> ...").data
    rw [String.data_append, String.data_append]

/-- Claim C9 witness: the guard applied to the one-argument invocation
`python upload.py my_entity` (zero files). -/
theorem C9_witness :
    script_main ["upload.py", "my_entity"] "https://example.com" "tok"
        .raisedCall .raisedCall .raisedCall =
      { stdout := ["Usage: python upload.py <entity_name> <file1> <file2> ..."],
        exitStatus := 1, controlRequests := [], storagePosts := 0, uncaught := none } :=
  (C9_usage_guard "upload.py" ["my_entity"] "https://example.com" "tok"
    .raisedCall .raisedCall .raisedCall (by decide)).1

end Script
